import Mathlib

/-!
Verification of the swatch passthrough-filesystem adapter (src/main.rs).

The development shallowly embeds the adapter's request handlers. Modelling
conventions, in correspondence with the Rust source:

* `Stat` mirrors the fields of the backing `stat` record that
  `meta_into_file_attr` reads (macOS layout: `st_mode` is a 16-bit mode,
  `st_birthtime` and `st_flags` are present). Machine integers are `Nat`/`Int`
  with explicit masking or `% 2 ^ w` where the source performs an `as` cast.
* `chrono::DateTime::from_timestamp(secs, 0)` is modelled by `fromTimestamp`,
  which succeeds exactly on the representable range `[tsMin, tsMax]`
  (the timestamps of chrono's `MIN_UTC` / `MAX_UTC`). The structured
  timestamp itself is represented by its epoch seconds.
* A Rust process abort (a failed `unwrap` or an explicit abort in the
  `match typ` arm) is modelled by `Option.none` in `meta_into_file_attr`,
  and by the `Reply.fatal` outcome in a handler.
* A handler's interaction with its reply object is modelled by the `Reply`
  outcome type: `payload` for a success reply, `error` for an errno reply,
  `noReply` for a control path that returns without invoking the reply
  object, and `fatal` for a process abort.
* The backing directory handle (`openat::Dir`) is modelled by `BackingDir`:
  the result of `self_metadata()`, the directory's children, and an
  injected-fault map modelling backing failures other than not-found
  (permission denied, device error) on a per-name basis. `Dir::metadata`
  returns a not-found error exactly when the name is absent and no fault is
  injected. File names are modelled as `String` (valid UTF-8 in scope;
  `OsStr::to_str` succeeds on them).
* `fuser::ReplyDirectory::add` returns `true` when the entry does not fit.
  The reply buffer is modelled by its remaining capacity in entries, the
  parameter `cap` of `readdir`.
-/

namespace Swatch

/-- Protocol file-type tags (the closed set of `fuser::FileType`). -/
inductive FileType where
  | RegularFile
  | Directory
  | Symlink
  | BlockDevice
  | CharDevice
  | NamedPipe
  | Socket
deriving DecidableEq, Repr

/-- Backing `stat` record, the fields read by `meta_into_file_attr`. -/
structure Stat where
  st_mode : Nat
  st_ino : Nat
  st_size : Int
  st_blocks : Int
  st_atime : Int
  st_mtime : Int
  st_ctime : Int
  st_birthtime : Int
  st_nlink : Nat
  st_uid : Nat
  st_gid : Nat
  st_rdev : Int
  st_blksize : Int
  st_flags : Nat
deriving DecidableEq, Repr

/-- The file-type mask of `st_mode` (`libc::S_IFMT`). -/
def S_IFMT : Nat := 0o170000

/-- Named pipe type bits. -/
def S_IFIFO : Nat := 0o010000

/-- Character device type bits. -/
def S_IFCHR : Nat := 0o020000

/-- Directory type bits. -/
def S_IFDIR : Nat := 0o040000

/-- Block device type bits. -/
def S_IFBLK : Nat := 0o060000

/-- Regular file type bits. -/
def S_IFREG : Nat := 0o100000

/-- Symbolic link type bits. -/
def S_IFLNK : Nat := 0o120000

/-- Socket type bits. -/
def S_IFSOCK : Nat := 0o140000

/-- Least epoch-seconds value representable by chrono (`MIN_UTC`). -/
def tsMin : Int := -8334601228800

/-- Greatest epoch-seconds value representable by chrono (`MAX_UTC`). -/
def tsMax : Int := 8210266876799

/-- Whether an epoch-seconds value is in chrono's representable range. -/
def tsInRange (secs : Int) : Bool :=
  decide (tsMin ≤ secs) && decide (secs ≤ tsMax)

/-- `chrono::DateTime::from_timestamp(secs, 0)`: `none` iff out of range. -/
def fromTimestamp (secs : Int) : Option Int :=
  if tsInRange secs then some secs else none

/-- The `match typ` arm of `meta_into_file_attr`: type bits to type tag,
`none` for an unrecognized pattern (a process abort in the source). -/
def kindOfMode (typ : Nat) : Option FileType :=
  if typ = S_IFREG then some FileType.RegularFile
  else if typ = S_IFDIR then some FileType.Directory
  else if typ = S_IFLNK then some FileType.Symlink
  else if typ = S_IFBLK then some FileType.BlockDevice
  else if typ = S_IFCHR then some FileType.CharDevice
  else if typ = S_IFIFO then some FileType.NamedPipe
  else if typ = S_IFSOCK then some FileType.Socket
  else none

/-- Protocol Attribute Record (`fuser::FileAttr`); timestamps are epoch
seconds. -/
structure FileAttr where
  ino : Nat
  size : Nat
  blocks : Nat
  atime : Int
  mtime : Int
  ctime : Int
  crtime : Int
  kind : FileType
  perm : Nat
  nlink : Nat
  uid : Nat
  gid : Nat
  rdev : Nat
  blksize : Nat
  flags : Nat
deriving DecidableEq, Repr

/-- `meta_into_file_attr` from the source: translates backing metadata to an
Attribute Record; `none` models the process aborting (failed timestamp
`unwrap`, or unrecognized type bits). -/
def meta_into_file_attr (s : Stat) : Option FileAttr :=
  (fromTimestamp s.st_atime).bind fun atime =>
  (fromTimestamp s.st_mtime).bind fun mtime =>
  (fromTimestamp s.st_ctime).bind fun ctime =>
  (fromTimestamp s.st_birthtime).bind fun crtime =>
  (kindOfMode (s.st_mode &&& S_IFMT)).bind fun kind =>
  some
    { ino := s.st_ino
      size := (s.st_size % (2 ^ 64 : Int)).toNat
      blocks := (s.st_blocks % (2 ^ 64 : Int)).toNat
      atime := atime
      mtime := mtime
      ctime := ctime
      crtime := crtime
      kind := kind
      perm := s.st_mode &&& (S_IFMT ^^^ 65535)
      nlink := s.st_nlink
      uid := s.st_uid
      gid := s.st_gid
      rdev := (s.st_rdev % (2 ^ 32 : Int)).toNat
      blksize := (s.st_blksize % (2 ^ 32 : Int)).toNat
      flags := s.st_flags }

/-- The relevant `std::io::ErrorKind` distinctions for the adapter. -/
inductive ErrorKind where
  | NotFound
  | PermissionDenied
  | Other
deriving DecidableEq, Repr

/-- The backing directory handle (`openat::Dir`): the result of
`self_metadata()`, the children of the directory, and injected backing
failures other than not-found, per name. -/
structure BackingDir where
  selfMeta : Except ErrorKind Stat
  children : List (String × Stat)
  fault : String → Option ErrorKind

/-- `openat::Dir::metadata(name)`: an injected fault if present, otherwise
the child's metadata, otherwise a not-found error. -/
def BackingDir.metadata (d : BackingDir) (name : String) : Except ErrorKind Stat :=
  match d.fault name with
  | some e => Except.error e
  | none =>
    match d.children.find? (fun p => p.1 == name) with
    | some p => Except.ok p.2
    | none => Except.error ErrorKind.NotFound

/-- Outcome of one dispatched request: a success reply, an errno reply, a
control path that sends no reply, or a process abort. -/
inductive Reply (α : Type) where
  | payload (a : α)
  | error (errno : Nat)
  | noReply
  | fatal
deriving DecidableEq, Repr

/-- `libc::ENOENT`, the protocol's "no such entry" error code. -/
def ENOENT : Nat := 2

/-- The attribute/entry cache TTL advertised by the adapter, in seconds. -/
def TTL : Nat := 1

/-- Payload of a successful `lookup` reply (`ReplyEntry::entry`). -/
structure EntryOut where
  ttl : Nat
  attr : FileAttr
  generation : Nat
deriving DecidableEq, Repr

/-- `SwatchFS::lookup`: fetch the child's backing metadata; reply not-found
on a not-found error (and nothing at all on any other error); reply an
entry only for parent 1 and the hard-coded name, not-found otherwise. -/
def SwatchFS.lookup (d : BackingDir) (parent : Nat) (name : String) :
    Reply EntryOut :=
  match d.metadata name with
  | Except.error e =>
    if e = ErrorKind.NotFound then Reply.error ENOENT
    else Reply.noReply
  | Except.ok st =>
    if parent = 1 ∧ name = "hello.txt" then
      match meta_into_file_attr st with
      | some attr => Reply.payload ⟨TTL, attr, 0⟩
      | none => Reply.fatal
    else Reply.error ENOENT

/-- `SwatchFS::getattr`: identity 1 answers with the root's translated
self-metadata (aborting on a backing failure, via `unwrap`); any other
identity answers not-found. -/
def SwatchFS.getattr (d : BackingDir) (ino : Nat) : Reply (Nat × FileAttr) :=
  if ino = 1 then
    match d.selfMeta with
    | Except.ok st =>
      match meta_into_file_attr st with
      | some attr => Reply.payload (TTL, attr)
      | none => Reply.fatal
    | Except.error _ => Reply.fatal
  else Reply.error ENOENT

/-- `SwatchFS::read`: identity 2 falls into a branch whose reply statement is
commented out, so no reply is sent; every other identity answers
not-found. The offset and size are ignored. -/
def SwatchFS.read (ino : Nat) (_offset : Int) (_size : Nat) :
    Reply (List Nat) :=
  if ino = 2 then Reply.noReply
  else Reply.error ENOENT

/-- One entry of a `readdir` reply: identity, offset of the next entry,
type tag, name (the four arguments of `ReplyDirectory::add`). -/
structure DirEntry where
  ino : Nat
  off : Nat
  kind : FileType
  name : String
deriving DecidableEq, Repr

/-- The hard-coded entry list of `SwatchFS::readdir`. -/
def dirEntries : List (Nat × FileType × String) :=
  [(1, FileType.Directory, "."),
   (1, FileType.Directory, ".."),
   (2, FileType.RegularFile, "hello.txt")]

/-- `SwatchFS::readdir`: not-found unless the identity is 1; otherwise emit
the hard-coded entries, skipping `offset` of them, each stamped with the
index of the next entry, stopping when the reply buffer (capacity `cap`
entries) is full, and reply success. -/
def SwatchFS.readdir (ino : Nat) (offset : Nat) (cap : Nat) :
    Reply (List DirEntry) :=
  if ino ≠ 1 then Reply.error ENOENT
  else
    Reply.payload
      ((((dirEntries.enum).drop offset).take cap).map
        (fun p => ⟨p.2.1, p.1 + 1, p.2.2.1, p.2.2.2⟩))

/-- The kernel's driving loop for a paged directory read: one `readdir` call
per buffer capacity in `caps`, resuming at the offset stamped on the last
entry received, stopping at the first empty (or failed) reply. -/
def runReaddir : Nat → List Nat → List DirEntry
  | _, [] => []
  | off, cap :: caps =>
    match SwatchFS.readdir 1 off cap with
    | Reply.payload batch =>
      match batch.getLast? with
      | some e => batch ++ runReaddir e.off caps
      | none => []
    | _ => []

/-- Backing metadata of the end-to-end scenario's `hello.txt` (a regular
file of size 13, backing inode 42). -/
def helloStat : Stat :=
  { st_mode := S_IFREG ||| 0o644
    st_ino := 42
    st_size := 13
    st_blocks := 1
    st_atime := 0
    st_mtime := 0
    st_ctime := 0
    st_birthtime := 0
    st_nlink := 1
    st_uid := 501
    st_gid := 20
    st_rdev := 0
    st_blksize := 4096
    st_flags := 0 }

/-- Backing metadata of the scenario's root directory (backing inode 99). -/
def rootStat : Stat :=
  { st_mode := S_IFDIR ||| 0o755
    st_ino := 99
    st_size := 96
    st_blocks := 0
    st_atime := 0
    st_mtime := 0
    st_ctime := 0
    st_birthtime := 0
    st_nlink := 3
    st_uid := 501
    st_gid := 20
    st_rdev := 0
    st_blksize := 4096
    st_flags := 0 }

/-- The Attribute Record `meta_into_file_attr` produces from `helloStat`. -/
def helloAttr : FileAttr :=
  { ino := 42
    size := 13
    blocks := 1
    atime := 0
    mtime := 0
    ctime := 0
    crtime := 0
    kind := FileType.RegularFile
    perm := 0o644
    nlink := 1
    uid := 501
    gid := 20
    rdev := 0
    blksize := 4096
    flags := 0 }

/-- The Attribute Record `meta_into_file_attr` produces from `rootStat`. -/
def rootAttr : FileAttr :=
  { ino := 99
    size := 96
    blocks := 0
    atime := 0
    mtime := 0
    ctime := 0
    crtime := 0
    kind := FileType.Directory
    perm := 0o755
    nlink := 3
    uid := 501
    gid := 20
    rdev := 0
    blksize := 4096
    flags := 0 }

/-- The end-to-end scenario's backing directory: exactly one regular file
`hello.txt` of size 13, no injected faults. -/
def scenarioDir : BackingDir :=
  { selfMeta := Except.ok rootStat
    children := [("hello.txt", helloStat)]
    fault := fun _ => none }

/-- A backing directory whose single child is named `other.txt`. -/
def cexDir : BackingDir :=
  { selfMeta := Except.ok rootStat
    children := [("other.txt", helloStat)]
    fault := fun _ => none }

/-- A backing directory where every metadata access fails with permission
denied (a backing failure other than not-found). -/
def permDir : BackingDir :=
  { selfMeta := Except.error ErrorKind.PermissionDenied
    children := []
    fault := fun _ => some ErrorKind.PermissionDenied }

/-- The full rendered listing `readdir` emits for the root from offset 0. -/
def fullListing : List DirEntry :=
  [⟨1, 1, FileType.Directory, "."⟩,
   ⟨1, 2, FileType.Directory, ".."⟩,
   ⟨2, 3, FileType.RegularFile, "hello.txt"⟩]

/-- A backing metadata record with unrecognized type bits (all mode bits
zero), otherwise identical to `helloStat`. -/
def badStat : Stat :=
  { helloStat with st_mode := 0 }

theorem fromTimestamp_some {secs t : Int} (h : fromTimestamp secs = some t) :
    tsInRange secs = true ∧ t = secs := by
  unfold fromTimestamp at h
  rcases ht : tsInRange secs with _ | _
  · rw [ht] at h
    simp at h
  · rw [ht] at h
    simp at h
    exact ⟨rfl, h.symm⟩

theorem meta_some_fields (st : Stat) (a : FileAttr)
    (h : meta_into_file_attr st = some a) :
    a.perm = st.st_mode &&& (S_IFMT ^^^ 65535)
      ∧ kindOfMode (st.st_mode &&& S_IFMT) = some a.kind
      ∧ a.ino = st.st_ino
      ∧ a.size = (st.st_size % (2 ^ 64 : Int)).toNat
      ∧ tsInRange st.st_atime = true
      ∧ tsInRange st.st_mtime = true
      ∧ tsInRange st.st_ctime = true
      ∧ tsInRange st.st_birthtime = true := by
  unfold meta_into_file_attr at h
  rcases hA : fromTimestamp st.st_atime with _ | atime
  · rw [hA, Option.none_bind] at h
    exact absurd h (by simp)
  rw [hA, Option.some_bind] at h
  rcases hM : fromTimestamp st.st_mtime with _ | mtime
  · rw [hM, Option.none_bind] at h
    exact absurd h (by simp)
  rw [hM, Option.some_bind] at h
  rcases hC : fromTimestamp st.st_ctime with _ | ctime
  · rw [hC, Option.none_bind] at h
    exact absurd h (by simp)
  rw [hC, Option.some_bind] at h
  rcases hB : fromTimestamp st.st_birthtime with _ | crtime
  · rw [hB, Option.none_bind] at h
    exact absurd h (by simp)
  rw [hB, Option.some_bind] at h
  rcases hK : kindOfMode (st.st_mode &&& S_IFMT) with _ | kind
  · rw [hK, Option.none_bind] at h
    exact absurd h (by simp)
  rw [hK, Option.some_bind] at h
  injection h with h2
  subst h2
  exact ⟨rfl, rfl, rfl, rfl, (fromTimestamp_some hA).1, (fromTimestamp_some hM).1,
    (fromTimestamp_some hC).1, (fromTimestamp_some hB).1⟩

/-- Claim C1 (code bug): in the end-to-end scenario (one backing regular
file `hello.txt` of size 13, backing inode 42), `lookup(1, "hello.txt")`
does succeed with type regular-file and size 13 under identity 42, but
`read-directory` lists `hello.txt` under the unrelated hard-coded
identity 2, and `read-file` never returns the file's bytes: at identity 42
it replies "no such entry", and at identity 2 it sends no reply at all. -/
theorem end_to_end_scenario_divergence :
    SwatchFS.lookup scenarioDir 1 "hello.txt" =
        Reply.payload ⟨TTL, helloAttr, 0⟩
      ∧ helloAttr.kind = FileType.RegularFile
      ∧ helloAttr.size = 13
      ∧ helloAttr.ino = 42
      ∧ SwatchFS.readdir 1 0 100 = Reply.payload fullListing
      ∧ fullListing.map DirEntry.ino = [1, 1, 2]
      ∧ SwatchFS.read 42 7 100 = Reply.error ENOENT
      ∧ SwatchFS.read 2 7 100 = Reply.noReply
      ∧ SwatchFS.read 2 13 5 = Reply.noReply := by
  decide

/-- Claim C2 (code bug): two request paths return without answering the
reply channel while the process lives: `read-file` on identity 2 (its reply
statement is commented out), and `lookup` when the backing metadata fetch
fails with an error other than not-found. -/
theorem reply_dropped_divergence :
    SwatchFS.read 2 0 4096 = Reply.noReply
      ∧ SwatchFS.lookup permDir 1 "hello.txt" = Reply.noReply := by
  decide

/-- Claim C3 (code bug): read clipping is not implemented. For the known
regular-file identity 2, a read at offset 13 (= file size) sends no reply
instead of an empty result, and an in-bounds read at offset 7 sends no
reply instead of the truncated 6 bytes; the identity 42 that `lookup`
returned for the file is not even recognized by `read-file`. -/
theorem read_clipping_divergence :
    SwatchFS.read 2 13 5 = Reply.noReply
      ∧ SwatchFS.read 2 7 100 = Reply.noReply
      ∧ SwatchFS.read 42 13 5 = Reply.error ENOENT := by
  decide

/-- Claim C6 (code bug): a backing failure other than not-found is not
propagated as a distinct protocol error code: `lookup` returns without
sending any reply (the not-found branch has no else), and `getattr` on the
root aborts the process (a failed `unwrap`) instead of replying. -/
theorem backing_error_propagation_divergence :
    SwatchFS.lookup permDir 1 "hello.txt" = Reply.noReply
      ∧ SwatchFS.getattr permDir 1 = Reply.fatal := by
  decide

/-- Claim C7 fails as stated: `get-attributes(1)` does not succeed for
every request while the mount is alive — on a request during which the
backing self-metadata fetch fails (permission denied, a recoverable
backing I/O failure, not a by-design-fatal metadata-contract violation),
the handler aborts the process instead of replying. -/
theorem getattr_root_claim_counterexample :
    permDir.selfMeta = Except.error ErrorKind.PermissionDenied
      ∧ SwatchFS.getattr permDir 1 = Reply.fatal :=
  ⟨rfl, by decide⟩

/-- Claim C7 (amended): the root's protocol identity is 1.
`get-attributes(1)` succeeds with the root's translated attributes and
the TTL whenever the backing self-metadata fetch succeeds with
translatable metadata; when the backing fetch fails, the handler aborts
the process instead of replying (untranslatable metadata is likewise
fatal, by design); `get-attributes` of any other identity (in particular
any identity never assigned by the mount) replies "no such entry" rather
than crashing. -/
theorem getattr_root_invariant :
    (∀ (d : BackingDir) (st : Stat) (a : FileAttr),
        d.selfMeta = Except.ok st → meta_into_file_attr st = some a →
        SwatchFS.getattr d 1 = Reply.payload (TTL, a))
      ∧ (∀ (d : BackingDir) (e : ErrorKind),
        d.selfMeta = Except.error e → SwatchFS.getattr d 1 = Reply.fatal)
      ∧ (∀ (d : BackingDir) (ino : Nat), ino ≠ 1 →
        SwatchFS.getattr d ino = Reply.error ENOENT) := by
  refine ⟨?_, ?_, ?_⟩
  · intro d st a hst ha
    simp [SwatchFS.getattr, hst, ha]
  · intro d e hst
    simp [SwatchFS.getattr, hst]
  · intro d ino h
    simp [SwatchFS.getattr, h]

/-- Witness for claim C7 (amended), at the scenario backing directory and
at one whose self-metadata fetch fails. -/
theorem getattr_root_invariant_witness :
    SwatchFS.getattr scenarioDir 1 = Reply.payload (TTL, rootAttr)
      ∧ SwatchFS.getattr permDir 1 = Reply.fatal
      ∧ SwatchFS.getattr scenarioDir 5 = Reply.error ENOENT :=
  ⟨getattr_root_invariant.1 scenarioDir rootStat rootAttr rfl (by decide),
   getattr_root_invariant.2.1 permDir ErrorKind.PermissionDenied rfl,
   getattr_root_invariant.2.2 scenarioDir 5 (by decide)⟩

/-- Claim C8: the attribute translation is fatal, not recoverable, on a
broken metadata contract: if the file-mode's type bits match none of the
seven recognized patterns, or any of the four timestamps is outside the
representable range, `meta_into_file_attr` aborts the process (modelled by
`none`) rather than producing a coerced Attribute Record. -/
theorem attr_translation_fatal_on_invariant_violation (st : Stat)
    (h : kindOfMode (st.st_mode &&& S_IFMT) = none
      ∨ tsInRange st.st_atime = false
      ∨ tsInRange st.st_mtime = false
      ∨ tsInRange st.st_ctime = false
      ∨ tsInRange st.st_birthtime = false) :
    meta_into_file_attr st = none := by
  rcases hr : meta_into_file_attr st with _ | a
  · rfl
  exfalso
  obtain ⟨-, hkind, -, -, hA, hM, hC, hB⟩ := meta_some_fields st a hr
  rcases h with h | h | h | h | h
  · rw [hkind] at h
    cases h
  · rw [hA] at h
    cases h
  · rw [hM] at h
    cases h
  · rw [hC] at h
    cases h
  · rw [hB] at h
    cases h

/-- Witness for claim C8: a metadata record with all-zero mode bits has an
unrecognized type pattern, and its translation is fatal. -/
theorem attr_translation_fatal_witness :
    kindOfMode (badStat.st_mode &&& S_IFMT) = none
      ∧ meta_into_file_attr badStat = none :=
  ⟨by decide,
   attr_translation_fatal_on_invariant_violation badStat (Or.inl (by decide))⟩

/-- A second regular-file metadata record with the same type bits as
`helloStat` but different permission bits and backing inode. -/
def hello600Stat : Stat :=
  { helloStat with st_mode := S_IFREG ||| 0o600, st_ino := 43 }

/-- The Attribute Record `meta_into_file_attr` produces from
`hello600Stat`. -/
def hello600Attr : FileAttr :=
  { helloAttr with perm := 0o600, ino := 43 }

/-- Claim C9: whenever the attribute translation succeeds, the permission
field equals the backing mode with all type bits removed (st_mode AND NOT
S_IFMT), so no type bits are reported in it, and the type tag is
determined by the type bits alone: two translatable metadata values with
equal type bits receive the same tag. -/
theorem attr_perm_and_kind_from_mode :
    (∀ (st : Stat) (a : FileAttr), meta_into_file_attr st = some a →
        a.perm = st.st_mode &&& (S_IFMT ^^^ 65535) ∧ a.perm &&& S_IFMT = 0)
      ∧ (∀ (st st' : Stat) (a a' : FileAttr),
        meta_into_file_attr st = some a → meta_into_file_attr st' = some a' →
        st.st_mode &&& S_IFMT = st'.st_mode &&& S_IFMT → a.kind = a'.kind) := by
  constructor
  · intro st a h
    obtain ⟨hperm, -⟩ := meta_some_fields st a h
    refine ⟨hperm, ?_⟩
    have h0 : ((S_IFMT ^^^ 65535) &&& S_IFMT : Nat) = 0 := by decide
    rw [hperm, Nat.and_assoc, h0, Nat.and_zero]
  · intro st st' a a' h h' hmode
    obtain ⟨-, hk, -⟩ := meta_some_fields st a h
    obtain ⟨-, hk', -⟩ := meta_some_fields st' a' h'
    rw [hmode] at hk
    exact Option.some.inj (hk.symm.trans hk')

/-- Witness for claim C9, at two concrete regular-file metadata records. -/
theorem attr_perm_and_kind_witness :
    helloAttr.perm = helloStat.st_mode &&& (S_IFMT ^^^ 65535)
      ∧ helloAttr.perm &&& S_IFMT = 0
      ∧ helloAttr.kind = hello600Attr.kind :=
  ⟨(attr_perm_and_kind_from_mode.1 helloStat helloAttr (by decide)).1,
   (attr_perm_and_kind_from_mode.1 helloStat helloAttr (by decide)).2,
   attr_perm_and_kind_from_mode.2 helloStat hello600Stat helloAttr hello600Attr
     (by decide) (by decide) (by decide)⟩

/-- Claim C10 (implicit): every Attribute Record the adapter returns
carries the backing st_ino as its ino field rather than the protocol
identity used to address the object: `getattr(1)` reports the backing
root's st_ino, `lookup` returns the child's backing st_ino as its
identity, while `readdir` lists the same `hello.txt` under the hard-coded
identity 2 — the same object is exposed under two generally different
identities. -/
theorem attr_ino_is_backing_st_ino :
    (∀ (st : Stat) (a : FileAttr), meta_into_file_attr st = some a →
        a.ino = st.st_ino)
      ∧ (∀ (d : BackingDir) (st : Stat) (a : FileAttr),
        d.selfMeta = Except.ok st → meta_into_file_attr st = some a →
        SwatchFS.getattr d 1 = Reply.payload (TTL, a))
      ∧ (∀ (d : BackingDir) (st : Stat) (a : FileAttr),
        d.metadata "hello.txt" = Except.ok st →
        meta_into_file_attr st = some a →
        SwatchFS.lookup d 1 "hello.txt" = Reply.payload ⟨TTL, a, 0⟩)
      ∧ SwatchFS.readdir 1 0 100 = Reply.payload fullListing
      ∧ fullListing.map DirEntry.name = [".", "..", "hello.txt"]
      ∧ fullListing.map DirEntry.ino = [1, 1, 2] := by
  refine ⟨?_, ?_, ?_, by decide, by decide, by decide⟩
  · intro st a h
    exact (meta_some_fields st a h).2.2.1
  · intro d st a hst ha
    simp [SwatchFS.getattr, hst, ha]
  · intro d st a hmeta ha
    simp [SwatchFS.lookup, hmeta, ha]

/-- Witness for claim C10: in the end-to-end scenario the file's lookup
identity is the backing inode 42 while the listing identity is 2, and the
root's reported ino is the backing 99, not the protocol identity 1. -/
theorem attr_ino_witness :
    helloAttr.ino = 42
      ∧ rootAttr.ino = 99
      ∧ SwatchFS.getattr scenarioDir 1 = Reply.payload (TTL, rootAttr)
      ∧ SwatchFS.lookup scenarioDir 1 "hello.txt" =
          Reply.payload ⟨TTL, helloAttr, 0⟩
      ∧ 42 ≠ 2
      ∧ 99 ≠ 1 :=
  ⟨attr_ino_is_backing_st_ino.1 helloStat helloAttr (by decide),
   attr_ino_is_backing_st_ino.1 rootStat rootAttr (by decide),
   attr_ino_is_backing_st_ino.2.1 scenarioDir rootStat rootAttr rfl (by decide),
   attr_ino_is_backing_st_ino.2.2.1 scenarioDir helloStat helloAttr
     rfl (by decide),
   by decide, by decide⟩

/-- Claim C4 fails as stated: with a backing directory whose single child
is `other.txt`, the child exists and the parent is the root, yet `lookup`
replies "no such entry", because success additionally requires the
hard-coded name `hello.txt`; and on a backing failure other than
not-found, `lookup` sends no reply instead of a "no such entry" error. -/
theorem lookup_iff_claim_counterexample :
    cexDir.metadata "other.txt" = Except.ok helloStat
      ∧ SwatchFS.lookup cexDir 1 "other.txt" = Reply.error ENOENT
      ∧ SwatchFS.lookup permDir 1 "hello.txt" = Reply.noReply :=
  ⟨rfl, by decide, by decide⟩

/-- Claim C4 (amended): `lookup` replies an identity, Attribute Record and
TTL iff the parent is the root (1), the name is exactly the hard-coded
`hello.txt`, and the backing metadata fetch succeeds with translatable
metadata; it replies "no such entry" when the name is absent, and also
when the fetch succeeds but the parent/name pair is not the recognized
one; when the fetch fails with any error other than not-found it sends no
reply at all. -/
theorem lookup_characterization :
    (∀ (d : BackingDir) (parent : Nat) (name : String) (st : Stat)
        (a : FileAttr),
        d.metadata name = Except.ok st → meta_into_file_attr st = some a →
        (SwatchFS.lookup d parent name = Reply.payload ⟨TTL, a, 0⟩
          ↔ (parent = 1 ∧ name = "hello.txt")))
      ∧ (∀ (d : BackingDir) (parent : Nat) (name : String),
        d.metadata name = Except.error ErrorKind.NotFound →
        SwatchFS.lookup d parent name = Reply.error ENOENT)
      ∧ (∀ (d : BackingDir) (parent : Nat) (name : String) (st : Stat),
        d.metadata name = Except.ok st →
        ¬(parent = 1 ∧ name = "hello.txt") →
        SwatchFS.lookup d parent name = Reply.error ENOENT)
      ∧ (∀ (d : BackingDir) (parent : Nat) (name : String) (e : ErrorKind),
        d.metadata name = Except.error e → e ≠ ErrorKind.NotFound →
        SwatchFS.lookup d parent name = Reply.noReply) := by
  refine ⟨?_, ?_, ?_, ?_⟩
  · intro d parent name st a hmeta ha
    constructor
    · intro hpay
      by_cases hc : parent = 1 ∧ name = "hello.txt"
      · exact hc
      · simp [SwatchFS.lookup, hmeta, hc] at hpay
    · rintro ⟨rfl, rfl⟩
      simp [SwatchFS.lookup, hmeta, ha]
  · intro d parent name hmeta
    simp [SwatchFS.lookup, hmeta]
  · intro d parent name st hmeta hc
    simp [SwatchFS.lookup, hmeta, hc]
  · intro d parent name e hmeta he
    simp [SwatchFS.lookup, hmeta, he]

/-- Witness for claim C4 (amended), at the scenario backing directory. -/
theorem lookup_characterization_witness :
    SwatchFS.lookup scenarioDir 1 "hello.txt" =
        Reply.payload ⟨TTL, helloAttr, 0⟩
      ∧ SwatchFS.lookup scenarioDir 7 "hello.txt" = Reply.error ENOENT
      ∧ SwatchFS.lookup scenarioDir 1 "missing.txt" = Reply.error ENOENT :=
  ⟨(lookup_characterization.1 scenarioDir 1 "hello.txt" helloStat helloAttr
      rfl (by decide)).mpr ⟨rfl, rfl⟩,
   lookup_characterization.2.2.1 scenarioDir 7 "hello.txt" helloStat
     rfl (by decide),
   lookup_characterization.2.1 scenarioDir 1 "missing.txt" rfl⟩

theorem readdir_eq (offset cap : Nat) :
    SwatchFS.readdir 1 offset cap =
      Reply.payload ((fullListing.drop offset).take cap) := by
  unfold SwatchFS.readdir
  rw [if_neg (by simp), List.map_take, List.map_drop]
  rfl

theorem runReaddir_drop (caps : List Nat) :
    ∀ off : Nat, (∀ c ∈ caps, 1 ≤ c) → 3 ≤ off + caps.sum →
      runReaddir off caps = fullListing.drop off := by
  induction caps with
  | nil =>
    intro off _ hsum
    have hlen : fullListing.length ≤ off := by
      simp only [List.sum_nil, Nat.add_zero] at hsum
      simp [fullListing]
      omega
    rw [runReaddir]
    exact (List.drop_eq_nil_of_le hlen).symm
  | cons c caps ih =>
    intro off hpos hsum
    rw [List.sum_cons] at hsum
    have hc : 1 ≤ c := hpos c (List.mem_cons_self c caps)
    have hpos' : ∀ x ∈ caps, 1 ≤ x :=
      fun x hx => hpos x (List.mem_cons_of_mem c hx)
    rw [runReaddir, readdir_eq]
    by_cases hoff : 3 ≤ off
    · have hnil : fullListing.drop off = [] := by
        refine List.drop_eq_nil_of_le ?_
        simp [fullListing]
        omega
      rw [hnil]
      simp
    · push_neg at hoff
      obtain ⟨m, rfl⟩ : ∃ m, c = m + 1 := ⟨c - 1, by omega⟩
      interval_cases off
      · rcases m with _ | m
        · have hrest : runReaddir 1 caps = fullListing.drop 1 :=
            ih 1 hpos' (by omega)
          simp [fullListing] at hrest ⊢
          simp [hrest]
        · rcases m with _ | m
          · have hrest : runReaddir 2 caps = fullListing.drop 2 :=
              ih 2 hpos' (by omega)
            simp [fullListing] at hrest ⊢
            simp [hrest]
          · have hrest : runReaddir 3 caps = fullListing.drop 3 :=
              ih 3 hpos' (by omega)
            simp [fullListing] at hrest ⊢
            simp [hrest]
      · rcases m with _ | m
        · have hrest : runReaddir 2 caps = fullListing.drop 2 :=
            ih 2 hpos' (by omega)
          simp [fullListing] at hrest ⊢
          simp [hrest]
        · have hrest : runReaddir 3 caps = fullListing.drop 3 :=
            ih 3 hpos' (by omega)
          simp [fullListing] at hrest ⊢
          simp [hrest]
      · have hrest : runReaddir 3 caps = fullListing.drop 3 :=
          ih 3 hpos' (by omega)
        simp [fullListing] at hrest ⊢
        simp [hrest]

/-- Claim C5 fails as stated: with a backing directory whose single child
is `other.txt`, the complete root listing from offset 0 still names only
the hard-coded `hello.txt`, so the actual backing child never appears. -/
theorem readdir_all_children_counterexample :
    cexDir.children.map Prod.fst = ["other.txt"]
      ∧ SwatchFS.readdir 1 0 100 = Reply.payload fullListing
      ∧ ¬ ("other.txt" ∈ fullListing.map DirEntry.name) :=
  ⟨rfl, by decide, by decide⟩

/-- Claim C5 (amended): the root listing is the hard-coded sequence `.`
and `..` (both identity 1) followed by `hello.txt` (identity 2),
independent of the backing directory's actual children. An unbounded read
from offset 0 yields exactly that sequence; every partition into bounded
calls of nonzero capacity, each resumed at the offset stamped on the last
entry the handler returned, concatenates to the same sequence with no
entry repeated or skipped; and a call at an offset past the last entry
succeeds with no entries. -/
theorem readdir_listing_and_resumption :
    (∀ cap : Nat, 3 ≤ cap →
        SwatchFS.readdir 1 0 cap = Reply.payload fullListing)
      ∧ (∀ caps : List Nat, (∀ c ∈ caps, 1 ≤ c) → 3 ≤ caps.sum →
        runReaddir 0 caps = fullListing)
      ∧ (∀ offset cap : Nat, 3 ≤ offset →
        SwatchFS.readdir 1 offset cap = Reply.payload []) := by
  refine ⟨?_, ?_, ?_⟩
  · intro cap hcap
    rw [readdir_eq, List.drop_zero]
    obtain ⟨m, rfl⟩ : ∃ m, cap = m + 3 := ⟨cap - 3, by omega⟩
    simp [fullListing]
  · intro caps h1 h2
    have h := runReaddir_drop caps 0 h1 (by omega)
    rwa [List.drop_zero] at h
  · intro offset cap hoff
    have hnil : fullListing.drop offset = [] := by
      refine List.drop_eq_nil_of_le ?_
      simp [fullListing]
      omega
    rw [readdir_eq, hnil, List.take_nil]

/-- Witness for claim C5 (amended): a full read at capacity 3, a paged
read with capacities 2 and 2, and a completed read at offset 3. -/
theorem readdir_listing_witness :
    SwatchFS.readdir 1 0 3 = Reply.payload fullListing
      ∧ runReaddir 0 [2, 2] = fullListing
      ∧ SwatchFS.readdir 1 3 10 = Reply.payload [] :=
  ⟨readdir_listing_and_resumption.1 3 (by decide),
   readdir_listing_and_resumption.2.1 [2, 2] (by decide) (by decide),
   readdir_listing_and_resumption.2.2 3 10 (by decide)⟩

end Swatch
